import Mathlib

/-!
Verification of the googlecl calendar service module
(src/trunk/src/googlecl/calendar/service.py).

The module is a thin adapter over a remote calendar API.  We embed its pure
logic shallowly: the remote API, calendar-name resolution, URL unquoting and
batch execution are opaque collaborators collected in a record of functions
(ServiceEnv), while the date-range parser, the query construction, the
quick-add batch construction and the delete disambiguation flow are
translated directly from the Python source.  Python strings become String,
Python None becomes Option, and Python truthiness of optional strings is
made explicit (None and the empty string are falsy).
-/

/-- A calendar event as this module observes it: title text, an optional
recurrence descriptor, the event status value, the id text, the edit link
href used for deletion, and the optional original-event back-reference id
carried by expanded instances of a recurring series. -/
structure Event where
  titleText : String
  recurrence : Option String
  eventStatusValue : String
  idText : String
  editHref : String
  originalEventId : Option String
deriving DecidableEq, Repr

/-- A calendar entry; only its content src URL is consumed by this module. -/
structure Calendar where
  contentSrc : String
deriving DecidableEq, Repr

/-- The CalendarEventQuery attributes that get_events sets (lines 192-203 of
the source): user, text query, optional start bounds, the optional
singleevents flag, ordering attributes and the result cap. -/
structure CalendarEventQuery where
  user : String
  textQuery : Option String
  startMin : Option String
  startMax : Option String
  singleevents : Option String
  orderby : String
  sortorder : String
  maxResults : Nat
deriving DecidableEq, Repr

/-- One insertion item of the quick-add batch request: the event content
text, the quick_add flag value and the batch correlation id. -/
structure BatchItem where
  contentText : String
  quickAddValue : String
  batchId : String
deriving DecidableEq, Repr

/-- The external collaborators of the module: the formatted current date
(datetime.today().strftime(DATE_FORMAT)), calendar-name resolution
(GetSingleEntry over the allcalendars feed), urllib.unquote, the feed
fetch GetEntries (query and title filter), and ExecuteBatch. -/
structure ServiceEnv where
  today : String
  resolveCalendar : String → Option Calendar
  unquote : String → String
  getEntries : CalendarEventQuery → Option String → List Event
  executeBatch : List BatchItem → String → List Event

/-- Split a character list at the first comma: returns none when no comma
occurs, otherwise the characters before and after the first comma. -/
def splitAtComma : List Char → Option (List Char × List Char)
  | [] => none
  | c :: rest =>
    if c = ',' then some ([], rest)
    else
      match splitAtComma rest with
      | none => none
      | some (a, b) => some (c :: a, b)

/-- Python str.partition of a string at the first comma, projected to the
pair (before, after): when the string holds no comma the after component is
the empty string, exactly as partition returns ("s", "", ""). -/
def pyPartitionComma (s : String) : String × String :=
  match splitAtComma s.data with
  | none => (s, "")
  | some (a, b) => (String.mk a, String.mk b)

/-- Python str.split for a single-character separator on a character list:
empty pieces are kept, and the result is never the empty list. -/
def splitOnCharList (sep : Char) : List Char → List (List Char)
  | [] => [[]]
  | c :: rest =>
    match splitOnCharList sep rest with
    | [] => [[]]
    | h :: t => if c = sep then [] :: h :: t else (c :: h) :: t

/-- Python s.split(sep) for a single-character separator. -/
def pySplit (s : String) (sep : Char) : List String :=
  (splitOnCharList sep s.data).map String.mk

/-- get_start_and_end (source lines 220-238).  The date argument is optional
(Python None becomes none); today stands for the formatted current date the
source obtains from datetime.  The source branches on the Python truthiness
of date (None and the empty string are falsy) and on date being the single
comma; otherwise it partitions at the first comma, so the end component is a
string (possibly empty), while the default branch yields a None end. -/
def get_start_and_end (today : String) (date : Option String) : String × Option String :=
  match date with
  | some d =>
    if d ≠ "" ∧ d ≠ "," then
      let p := pyPartitionComma d
      (p.1, some p.2)
    else
      (today, none)
  | none => (today, none)

/-- get_calendar (source lines 141-153): resolves a calendar name through
the opaque single-entry fetch. -/
def get_calendar (env : ServiceEnv) (cal_name : String) : Option Calendar :=
  env.resolveCalendar cal_name

/-- The outcome of get_events: the diagnostics printed, the query issued
(none when the calendar could not be resolved) and the returned value,
where none models the bare Python return (None) of the unresolvable branch. -/
structure GetEventsResult where
  printed : List String
  issuedQuery : Option CalendarEventQuery
  result : Option (List Event)
deriving Repr

/-- The query construction of get_events (source lines 192-203): start_min
and start_max are set only when truthy, singleevents only under
expand_recurrence, and ordering is always ascending by start time. -/
def buildEventQuery (today user : String) (textQuery : Option String)
    (date : Option String) (maxResults : Nat) (expandRecurrence : Bool) :
    CalendarEventQuery :=
  let se := get_start_and_end today date
  { user := user
    textQuery := textQuery
    startMin := if se.1 ≠ "" then some se.1 else none
    startMax :=
      match se.2 with
      | some e => if e ≠ "" then some e else none
      | none => none
    singleevents := if expandRecurrence then some "true" else none
    orderby := "starttime"
    sortorder := "ascend"
    maxResults := maxResults }

/-- The tail of get_events once the user is known: build the query and fetch
the entries through the opaque GetEntries. -/
def queryAndFetch (env : ServiceEnv) (user : String)
    (date title textQuery : Option String) (maxResults : Nat)
    (expandRecurrence : Bool) : GetEventsResult :=
  let q := buildEventQuery env.today user textQuery date maxResults expandRecurrence
  { printed := [], issuedQuery := some q, result := some (env.getEntries q title) }

/-- get_events (source lines 157-205).  A truthy calendar name is resolved;
on failure a diagnostic is printed and the function returns None (bare
return).  Otherwise the user is default, or the unquoted third-from-last
path segment of the resolved content src. -/
def get_events (env : ServiceEnv) (date : Option String := none)
    (title : Option String := none) (query : Option String := none)
    (calendar : Option String := none) (maxResults : Nat := 100)
    (expandRecurrence : Bool := true) : GetEventsResult :=
  match calendar with
  | some calName =>
    if calName ≠ "" then
      match get_calendar env calName with
      | some cal =>
        let parts := pySplit cal.contentSrc '/'
        let user := env.unquote (parts.getD (parts.length - 3) "")
        queryAndFetch env user date title query maxResults expandRecurrence
      | none =>
        { printed := ["No calendar matching title " ++ calName ++ "."]
          issuedQuery := none
          result := none }
    else queryAndFetch env "default" date title query maxResults expandRecurrence
  | none => queryAndFetch env "default" date title query maxResults expandRecurrence

/-- The outcome of quick_add_event: the batch request issued (items and
target URI), or none when the calendar was unresolvable, plus the returned
entries. -/
structure QuickAddResult where
  request : Option (List BatchItem × String)
  result : Option (List Event)
deriving Repr

/-- The insertion items built by quick_add_event (source lines 131-135):
one item per input string, in order, content set to the string, quick_add
set to true, and batch id insert-request followed by the index. -/
def quickAddItems (quick_add_strings : List String) : List BatchItem :=
  quick_add_strings.enum.map fun p =>
    { contentText := p.2
      quickAddValue := "true"
      batchId := "insert-request" ++ toString p.1 }

/-- quick_add_event (source lines 107-137): resolve the calendar when a
truthy name is given (aborting with None on failure), build the insertion
feed and execute one batch request against the uri plus /batch. -/
def quick_add_event (env : ServiceEnv) (quick_add_strings : List String)
    (calendar : Option String := none) : QuickAddResult :=
  let run : String → QuickAddResult := fun calUri =>
    let items := quickAddItems quick_add_strings
    { request := some (items, calUri ++ "/batch")
      result := some (env.executeBatch items (calUri ++ "/batch")) }
  match calendar with
  | some calName =>
    if calName ≠ "" then
      match get_calendar env calName with
      | none => { request := none, result := none }
      | some cal => run cal.contentSrc
    else run "/calendar/feeds/default/private/full"
  | none => run "/calendar/feeds/default/private/full"

/-- The instance filter of _batch_delete_recur (source lines 56-57): keep
the expanded events whose original-event back-reference is present and
equals the given series id. -/
def matchesSeries (seriesId : String) (e : Event) : Bool :=
  match e.originalEventId with
  | some oid => oid == seriesId
  | none => false

/-- _batch_delete_recur (source lines 51-61): re-query with the given date,
the title of the recurring event and expand_recurrence true; keep the
instances whose original-event id equals the last slash-separated segment
of the id text of the series; delete each kept instance through its edit
link.  The value is the issued query together with the edit hrefs deleted,
and none models the crash of the comprehension when get_events returned
None (unresolvable calendar). -/
def batch_delete_recur (env : ServiceEnv) (date : Option String) (event : Event)
    (calendar : Option String) : Option (CalendarEventQuery × List String) :=
  let r := get_events env date (some event.titleText) none calendar 100 true
  match r.issuedQuery, r.result with
  | some q, some single_events =>
    let seriesId := (pySplit event.idText '/').getLastD ""
    some (q, (single_events.filter (matchesSeries seriesId)).map (·.editHref))
  | _, _ => none

/-- What delete_events does to one recurring event: instance deletions with
the re-query that produced them, a series deletion through an edit href, a
skipped event, or a crash of the instance re-query. -/
inductive RecurAction where
  | deleteInstances (q : CalendarEventQuery) (hrefs : List String)
  | deleteSeries (href : String)
  | doNotDelete
  | crash
deriving DecidableEq, Repr

/-- The singleton side of the delete partition (source lines 73-74): events
with no recurrence whose status differs from CANCELED. -/
def singletonEvents (events : List Event) : List Event :=
  events.filter fun e => e.recurrence.isNone && (e.eventStatusValue != "CANCELED")

/-- The recurring side of the delete partition (source line 75): events
with a recurrence. -/
def recurringEvents (events : List Event) : List Event :=
  events.filter fun e => e.recurrence.isSome

/-- The dispatch on a validated selection 1-4 for one recurring event
(source lines 96-101).  The prompt loop of the source only lets an integer
between 1 and 4 through, so every other value means selection 4.  Choice 1
re-queries with the original date argument; choice 3 re-queries with the
start_date local variable of delete_events. -/
def recurActionFor (env : ServiceEnv) (date : Option String)
    (calendar : Option String) (start_date : String) (selection : Nat)
    (event : Event) : RecurAction :=
  match selection with
  | 1 =>
    match batch_delete_recur env date event calendar with
    | some (q, hrefs) => .deleteInstances q hrefs
    | none => .crash
  | 2 => .deleteSeries event.editHref
  | 3 =>
    match batch_delete_recur env (some start_date) event calendar with
    | some (q, hrefs) => .deleteInstances q hrefs
    | none => .crash
  | _ => .doNotDelete

/-- The observable behaviour of delete_events: the singletons handed to the
bulk Delete with the configured flag, the prompt text shown for recurring
events, and the action taken for each recurring event in order. -/
structure DeleteEventsTrace where
  singleDeleted : List Event
  deleteDefault : Bool
  promptStr : String
  recurActions : List (Event × RecurAction)
deriving Repr

/-- delete_events (source lines 63-103).  The input is partitioned into
singletons (bulk-deleted) and recurring events.  The date argument is
parsed once; a falsy end bound is replaced by the words the distant future
and a falsy start bound by the dawn of time, and these possibly replaced
local variables feed both the prompt text and, for the start, the choice 3
re-query.  With prompting disabled every recurring event is deleted through
its own edit link; otherwise the validated selection picks the action. -/
def delete_events (env : ServiceEnv) (prompt_for_delete : Bool)
    (delete_default : Bool) (choose : Event → Nat) (events : List Event)
    (date : Option String) (calendar : Option String) : DeleteEventsTrace :=
  let single_events := singletonEvents events
  let recurring_events := recurringEvents events
  let se := get_start_and_end env.today date
  let end_date :=
    match se.2 with
    | none => "the distant future"
    | some e => if e = "" then "the distant future" else e
  let start_date := if se.1 = "" then "the dawn of time" else se.1
  let prompt_str :=
    "1) Instances between " ++ start_date ++ " and " ++ end_date ++ "\n" ++
    "2) All events in this series\n" ++
    "3) All events following " ++ end_date ++ "\n" ++
    "4) Do not delete"
  { singleDeleted := single_events
    deleteDefault := delete_default
    promptStr := prompt_str
    recurActions := recurring_events.map fun ev =>
      (ev, if prompt_for_delete then
             recurActionFor env date calendar start_date (choose ev) ev
           else .deleteSeries ev.editHref) }

/-! Concrete environments and events used to instantiate the theorems. -/

/-- An environment whose calendar resolution always fails; the other
collaborators are inert. -/
def envNoCal : ServiceEnv :=
  { today := "2010-01-01"
    resolveCalendar := fun _ => none
    unquote := id
    getEntries := fun _ _ => []
    executeBatch := fun _ _ => [] }

/-- A non-recurring event whose status is CANCELED. -/
def cancelledSingleton : Event :=
  { titleText := "dentist"
    recurrence := none
    eventStatusValue := "CANCELED"
    idText := "http://cal/feeds/default/events/abc"
    editHref := "edit-abc"
    originalEventId := none }

/-! Claim theorems. -/

/-- C5: for the absent date and for the single comma, get_start_and_end
returns the same default pair, start equal to the formatted current date
and end equal to None. -/
theorem c5_default_range (today : String) :
    get_start_and_end today none = (today, none) ∧
    get_start_and_end today (some ",") = (today, none) := by
  exact ⟨rfl, rfl⟩

/-- C4 as stated is false on the code: for the input with only a start side
present, the absent end side comes back as the empty string produced by
partition, not as None. -/
theorem c4_counterexample :
    get_start_and_end "2010-01-01" (some "2010-06-01,") ≠ ("2010-06-01", none) ∧
    get_start_and_end "2010-01-01" (some "2010-06-01,") = ("2010-06-01", some "") := by
  exact ⟨by decide, rfl⟩

/-- C4 amended: with a comma and exactly one non-empty side, the present
side is returned as its bound and the absent side is the empty string, a
falsy value the callers treat as an open bound. -/
theorem c4_amended_one_sided_ranges (today : String) :
    get_start_and_end today (some "2010-06-01,") = ("2010-06-01", some "") ∧
    get_start_and_end today (some ",2010-06-20") = ("", some "2010-06-20") := by
  exact ⟨rfl, rfl⟩

/-- C8: a listing call with the range 2010-06-01,2010-06-20, no calendar
and the default expand_recurrence issues, with no diagnostic, one query
against user default with start_min 2010-06-01, start_max 2010-06-20,
singleevents true, ordered ascending by start time, capped at 100. -/
theorem c8_listing_query (env : ServiceEnv) :
    get_events env (some "2010-06-01,2010-06-20") none none none 100 true =
      { printed := []
        issuedQuery := some
          { user := "default"
            textQuery := none
            startMin := some "2010-06-01"
            startMax := some "2010-06-20"
            singleevents := some "true"
            orderby := "starttime"
            sortorder := "ascend"
            maxResults := 100 }
        result := some (env.getEntries
          { user := "default"
            textQuery := none
            startMin := some "2010-06-01"
            startMax := some "2010-06-20"
            singleevents := some "true"
            orderby := "starttime"
            sortorder := "ascend"
            maxResults := 100 } none) } := by
  rfl

/-- C9: with prompting disabled, delete_events takes for every recurring
event exactly one series deletion through that event's own edit link, with
no re-query and no per-instance deletions. -/
theorem c9_no_prompt_deletes_series (env : ServiceEnv) (dd : Bool)
    (choose : Event → Nat) (events : List Event) (date : Option String)
    (cal : Option String) :
    (delete_events env false dd choose events date cal).recurActions =
      (recurringEvents events).map fun ev =>
        (ev, RecurAction.deleteSeries ev.editHref) := by
  simp [delete_events]

/-- C10: the empty-string calendar name behaves exactly like the absent
one: get_events and quick_add_event ignore the resolution and unquoting
collaborators entirely, get_events targets user default, and quick add uses
the default primary-calendar feed URI, so the unresolvable path cannot
trigger. -/
theorem c10_empty_calendar_like_none (today : String)
    (rc rc2 : String → Option Calendar) (uq uq2 : String → String)
    (ge : CalendarEventQuery → Option String → List Event)
    (eb : List BatchItem → String → List Event)
    (date title q : Option String) (mr : Nat) (er : Bool)
    (strs : List String) :
    get_events ⟨today, rc, uq, ge, eb⟩ date title q (some "") mr er =
      get_events ⟨today, rc2, uq2, ge, eb⟩ date title q none mr er ∧
    quick_add_event ⟨today, rc, uq, ge, eb⟩ strs (some "") =
      quick_add_event ⟨today, rc2, uq2, ge, eb⟩ strs none ∧
    (get_events ⟨today, rc, uq, ge, eb⟩ date title q (some "") mr er).printed = [] ∧
    ((get_events ⟨today, rc, uq, ge, eb⟩ date title q (some "") mr er).issuedQuery).map
      (fun qq => qq.user) = some "default" ∧
    (quick_add_event ⟨today, rc, uq, ge, eb⟩ strs (some "")).request =
      some (quickAddItems strs, "/calendar/feeds/default/private/full" ++ "/batch") := by
  exact ⟨rfl, rfl, rfl, rfl, rfl⟩

/-- C3 as stated is false on the code: for an unresolvable calendar name,
get_events returns None (a bare return), not an empty list of events, even
though it does print the diagnostic. -/
theorem c3_counterexample :
    (get_events envNoCal none none none (some "Work") 100 true).result ≠
      some ([] : List Event) ∧
    (get_events envNoCal none none none (some "Work") 100 true).result = none ∧
    (get_events envNoCal none none none (some "Work") 100 true).printed =
      ["No calendar matching title Work."] := by
  exact ⟨by decide, rfl, rfl⟩

/-- C3 amended: for every calendar name that fails to resolve, get_events
prints the diagnostic and returns None with no query issued, and
quick_add_event aborts with None without building any batch request. -/
theorem c3_amended_unresolvable_calendar (env : ServiceEnv) (calName : String)
    (date title q : Option String) (mr : Nat) (er : Bool)
    (strs : List String) (hne : calName ≠ "")
    (hres : env.resolveCalendar calName = none) :
    get_events env date title q (some calName) mr er =
      { printed := ["No calendar matching title " ++ calName ++ "."]
        issuedQuery := none
        result := none } ∧
    quick_add_event env strs (some calName) =
      { request := none, result := none } := by
  constructor
  · simp [get_events, get_calendar, hne, hres]
  · simp [quick_add_event, get_calendar, hne, hres]

/-- Witness for the amended C3 at a concrete environment and name. -/
theorem c3_amended_witness :
    get_events envNoCal none none none (some "Work") 100 true =
      { printed := ["No calendar matching title Work."]
        issuedQuery := none
        result := none } ∧
    quick_add_event envNoCal ["tea time tomorrow"] (some "Work") =
      { request := none, result := none } :=
  c3_amended_unresolvable_calendar envNoCal "Work" none none none 100 true
    ["tea time tomorrow"] (by decide) rfl

/-- C2 as stated is false on the code: a cancelled non-recurring event
belongs to neither side of the partition, so the union of the two sides is
not the whole input, and singleton membership depends on the status, not
only on the recurrence rule. -/
theorem c2_counterexample :
    singletonEvents [cancelledSingleton] = [] ∧
    recurringEvents [cancelledSingleton] = [] ∧
    cancelledSingleton ∈ [cancelledSingleton] := by
  exact ⟨by decide, by decide, by decide⟩

/-- C2 amended: the two sides are disjoint and recurring membership is
decided by the recurrence rule alone, but singleton membership also
requires the status to differ from CANCELED, and the union misses exactly
the cancelled non-recurring events. -/
theorem c2_amended_partition (events : List Event) (e : Event) :
    (e ∈ recurringEvents events ↔ e ∈ events ∧ e.recurrence ≠ none) ∧
    (e ∈ singletonEvents events ↔
      e ∈ events ∧ e.recurrence = none ∧ e.eventStatusValue ≠ "CANCELED") ∧
    ¬(e ∈ singletonEvents events ∧ e ∈ recurringEvents events) ∧
    ((e ∈ events ∧ e ∉ singletonEvents events ∧ e ∉ recurringEvents events) ↔
      e ∈ events ∧ e.recurrence = none ∧ e.eventStatusValue = "CANCELED") := by
  simp only [recurringEvents, singletonEvents, List.mem_filter,
    Bool.and_eq_true, Option.isSome_iff_ne_none, Option.isNone_iff_eq_none,
    bne_iff_ne, ne_eq, decide_eq_true_eq]
  tauto

/-! Helper lemmas about get_events and the recurring-delete helper. -/

/-- Every outcome of get_events is either a fetch for some user or the
unresolvable-calendar diagnostic outcome. -/
theorem get_events_cases (env : ServiceEnv) (date title query cal : Option String)
    (mr : Nat) (er : Bool) :
    (∃ user, get_events env date title query cal mr er =
      queryAndFetch env user date title query mr er) ∨
    (∃ calName, get_events env date title query cal mr er =
      { printed := ["No calendar matching title " ++ calName ++ "."]
        issuedQuery := none
        result := none }) := by
  cases cal with
  | none => exact Or.inl ⟨"default", rfl⟩
  | some calName =>
    by_cases hne : calName = ""
    · subst hne
      exact Or.inl ⟨"default", by simp [get_events]⟩
    · cases hres : get_calendar env calName with
      | none =>
        refine Or.inr ⟨calName, ?_⟩
        simp only [get_events]
        rw [if_pos hne, hres]
      | some c =>
        refine Or.inl ⟨env.unquote ((pySplit c.contentSrc '/').getD
          ((pySplit c.contentSrc '/').length - 3) ""), ?_⟩
        simp only [get_events]
        rw [if_pos hne, hres]

/-- Whenever get_events issues a query, its returned value is exactly the
entries fetched for that query and title. -/
theorem get_events_result_of_issued (env : ServiceEnv)
    (date title query cal : Option String) (mr : Nat) (er : Bool)
    (q : CalendarEventQuery)
    (h : (get_events env date title query cal mr er).issuedQuery = some q) :
    (get_events env date title query cal mr er).result =
      some (env.getEntries q title) := by
  rcases get_events_cases env date title query cal mr er with ⟨user, he⟩ | ⟨calName, he⟩
  · rw [he] at h ⊢
    simp only [queryAndFetch, Option.some.injEq] at h ⊢
    rw [h]
  · rw [he] at h
    simp at h

/-- A successful _batch_delete_recur deletes exactly the edit links of the
fetched instances whose original-event id equals the last slash-separated
segment of the id text of the series. -/
theorem batch_delete_recur_spec (env : ServiceEnv) (date : Option String)
    (ev : Event) (cal : Option String) (q : CalendarEventQuery)
    (hrefs : List String)
    (h : batch_delete_recur env date ev cal = some (q, hrefs)) :
    hrefs = ((env.getEntries q (some ev.titleText)).filter
        (matchesSeries ((pySplit ev.idText '/').getLastD ""))).map
      (fun e => e.editHref) := by
  simp only [batch_delete_recur] at h
  cases hq : (get_events env date (some ev.titleText) none cal 100 true).issuedQuery with
  | none => rw [hq] at h; simp at h
  | some q1 =>
    cases hr : (get_events env date (some ev.titleText) none cal 100 true).result with
    | none => rw [hq, hr] at h; simp at h
    | some l =>
      rw [hq, hr] at h
      simp only [Option.some.injEq, Prod.mk.injEq] at h
      obtain ⟨rfl, rfl⟩ := h
      have hres := get_events_result_of_issued env date (some ev.titleText)
        none cal 100 true q1 hq
      rw [hr] at hres
      simp only [Option.some.injEq] at hres
      subst hres
      rfl

/-- C6: whenever delete choice 1 performs instance deletions, the deleted
hrefs are exactly those of the re-queried expanded instances whose
original-event back-reference equals the last path segment of the id of
the series; absent or different back-references are never deleted. -/
theorem c6_choice1_deletes_exact_matches (env : ServiceEnv)
    (date : Option String) (cal : Option String) (sd : String) (ev : Event)
    (q : CalendarEventQuery) (hrefs : List String)
    (h : recurActionFor env date cal sd 1 ev = RecurAction.deleteInstances q hrefs) :
    hrefs = ((env.getEntries q (some ev.titleText)).filter
        (matchesSeries ((pySplit ev.idText '/').getLastD ""))).map
      (fun e => e.editHref) := by
  simp only [recurActionFor] at h
  cases hb : batch_delete_recur env date ev cal with
  | none => rw [hb] at h; simp at h
  | some p =>
    obtain ⟨q1, hr1⟩ := p
    rw [hb] at h
    simp only [RecurAction.deleteInstances.injEq] at h
    obtain ⟨rfl, rfl⟩ := h
    exact batch_delete_recur_spec env date ev cal q1 hr1 hb

/-- A weekly recurring series for the choice-1 witness. -/
def seriesEv6 : Event :=
  { titleText := "gym"
    recurrence := some "FREQ=WEEKLY"
    eventStatusValue := "confirmed"
    idText := "http://www.google.com/calendar/feeds/default/events/evid123"
    editHref := "edit-series"
    originalEventId := none }

/-- An expanded instance pointing back at the series of the witness. -/
def instMatch6 : Event :=
  { titleText := "gym"
    recurrence := none
    eventStatusValue := "confirmed"
    idText := "http://cal/feeds/default/events/i1"
    editHref := "edit-i1"
    originalEventId := some "evid123" }

/-- An expanded instance pointing at a different series. -/
def instOther6 : Event :=
  { titleText := "gym"
    recurrence := none
    eventStatusValue := "confirmed"
    idText := "http://cal/feeds/default/events/i2"
    editHref := "edit-i2"
    originalEventId := some "other999" }

/-- An expanded instance with no original-event back-reference. -/
def instNoOrig6 : Event :=
  { titleText := "gym"
    recurrence := none
    eventStatusValue := "confirmed"
    idText := "http://cal/feeds/default/events/i3"
    editHref := "edit-i3"
    originalEventId := none }

/-- An environment whose fetch returns one matching and two non-matching
instances. -/
def env6 : ServiceEnv :=
  { today := "2010-01-01"
    resolveCalendar := fun _ => none
    unquote := id
    getEntries := fun _ _ => [instMatch6, instOther6, instNoOrig6]
    executeBatch := fun _ _ => [] }

/-- Witness for C6: at the concrete environment, choice 1 deletes only the
instance whose back-reference equals the series id. -/
theorem c6_witness :
    (["edit-i1"] : List String) =
      ((env6.getEntries
          { user := "default"
            textQuery := none
            startMin := some "2010-06-01"
            startMax := some "2010-06-20"
            singleevents := some "true"
            orderby := "starttime"
            sortorder := "ascend"
            maxResults := 100 }
          (some seriesEv6.titleText)).filter
        (matchesSeries ((pySplit seriesEv6.idText '/').getLastD ""))).map
      (fun e => e.editHref) :=
  c6_choice1_deletes_exact_matches env6 (some "2010-06-01,2010-06-20") none
    "2010-06-01" seriesEv6
    { user := "default"
      textQuery := none
      startMin := some "2010-06-01"
      startMax := some "2010-06-20"
      singleevents := some "true"
      orderby := "starttime"
      sortorder := "ascend"
      maxResults := 100 }
    ["edit-i1"] (by decide)

/-! Injectivity of the decimal rendering used for the batch correlation
ids (toString on Nat, which is Nat.repr). -/

/-- The numeric value of a decimal digit character. -/
def decDigitVal (c : Char) : Nat := c.toNat - 48

/-- Decode a decimal digit list, most significant digit first. -/
def decOfDigits (l : List Char) : Nat :=
  l.foldl (fun a c => a * 10 + decDigitVal c) 0

/-- The decimal digit characters of a natural number, most significant
first, by structural division. -/
def decDigits (n : Nat) : List Char :=
  if h : n < 10 then [Nat.digitChar n]
  else decDigits (n / 10) ++ [Nat.digitChar (n % 10)]
decreasing_by exact Nat.div_lt_self (by omega) (by omega)

theorem toDigitsCore_append (b : Nat) :
    ∀ (fuel n : Nat) (ds : List Char),
      Nat.toDigitsCore b fuel n ds = Nat.toDigitsCore b fuel n [] ++ ds := by
  intro fuel
  induction fuel with
  | zero => intro n ds; rfl
  | succ f ih =>
    intro n ds
    simp only [Nat.toDigitsCore]
    by_cases h : n / b = 0
    · simp [h]
    · simp only [h, if_false]
      rw [ih (n / b) (Nat.digitChar (n % b) :: ds),
        ih (n / b) [Nat.digitChar (n % b)]]
      simp

theorem toDigitsCore_eq_decDigits :
    ∀ (fuel n : Nat), n < fuel → Nat.toDigitsCore 10 fuel n [] = decDigits n := by
  intro fuel
  induction fuel with
  | zero => intro n h; omega
  | succ f ih =>
    intro n h
    simp only [Nat.toDigitsCore]
    by_cases h10 : n / 10 = 0
    · have hn : n < 10 := by omega
      rw [decDigits]
      simp [h10, hn, Nat.mod_eq_of_lt hn]
    · have hn : ¬n < 10 := by omega
      have hlt : n / 10 < f := by omega
      simp only [h10, if_false]
      rw [toDigitsCore_append 10 f (n / 10) [Nat.digitChar (n % 10)], ih (n / 10) hlt]
      conv_rhs => rw [decDigits]
      simp [hn]

theorem digitChar_val (m : Nat) (h : m < 10) : (Nat.digitChar m).toNat - 48 = m := by
  interval_cases m <;> rfl

theorem decOfDigits_decDigits (n : Nat) : decOfDigits (decDigits n) = n := by
  induction n using Nat.strong_induction_on with
  | _ n ih =>
    by_cases h : n < 10
    · rw [decDigits]
      simp only [h, dite_true]
      simp [decOfDigits, decDigitVal, digitChar_val n h]
    · rw [decDigits]
      simp only [h, dite_false]
      have hdiv : n / 10 < n := Nat.div_lt_self (by omega) (by omega)
      have ih1 := ih (n / 10) hdiv
      have hmod : (Nat.digitChar (n % 10)).toNat - 48 = n % 10 :=
        digitChar_val (n % 10) (Nat.mod_lt n (by omega))
      simp only [decOfDigits, List.foldl_append, List.foldl_cons, List.foldl_nil] at ih1 ⊢
      rw [ih1]
      simp only [decDigitVal, hmod]
      omega

theorem nat_repr_injective : Function.Injective Nat.repr := by
  intro a b h
  have hdata : Nat.toDigits 10 a = Nat.toDigits 10 b := by
    have hd := congrArg String.data h
    simpa [Nat.repr, List.asString] using hd
  have ha : Nat.toDigits 10 a = decDigits a :=
    toDigitsCore_eq_decDigits (a + 1) a (Nat.lt_succ_self a)
  have hb : Nat.toDigits 10 b = decDigits b :=
    toDigitsCore_eq_decDigits (b + 1) b (Nat.lt_succ_self b)
  calc a = decOfDigits (decDigits a) := (decOfDigits_decDigits a).symm
    _ = decOfDigits (decDigits b) := by rw [← ha, ← hb, hdata]
    _ = b := decOfDigits_decDigits b

theorem nat_toString_injective : Function.Injective (fun n : Nat => toString n) :=
  fun a b h => nat_repr_injective h

theorem string_append_left_cancel {s t u : String} (h : s ++ t = s ++ u) :
    t = u := by
  have hd := congrArg String.data h
  simp only [String.data_append] at hd
  exact String.ext (List.append_cancel_left hd)

theorem batchId_injective :
    Function.Injective (fun i : Nat => "insert-request" ++ toString i) :=
  fun a b h => nat_toString_injective (string_append_left_cancel h)

/-- C7: once the calendar is resolved (here the default one), quick add
issues exactly one batch request whose feed has one insertion item per
input string, in order: the i-th item carries the i-th string as content,
quick_add true and the sequential correlation id insert-request i, and all
correlation ids are distinct. -/
theorem c7_quick_add_batch (env : ServiceEnv) (strs : List String) :
    (quick_add_event env strs none).request =
      some (quickAddItems strs, "/calendar/feeds/default/private/full/batch") ∧
    (quickAddItems strs).length = strs.length ∧
    (∀ i : Nat, (quickAddItems strs).get? i = (strs.get? i).map fun s =>
      { contentText := s
        quickAddValue := "true"
        batchId := "insert-request" ++ toString i }) ∧
    ((quickAddItems strs).map (fun it => it.batchId)).Nodup := by
  refine ⟨rfl, ?_, ?_, ?_⟩
  · simp [quickAddItems]
  · intro i
    simp only [quickAddItems, List.get?_map, List.get?_enum, Option.map_map]
    cases strs.get? i <;> rfl
  · have hmap : (quickAddItems strs).map (fun it => it.batchId) =
        (strs.enum.map Prod.fst).map (fun i => "insert-request" ++ toString i) := by
      simp only [quickAddItems, List.map_map]
      rfl
    rw [hmap]
    exact (List.nodup_enum_map_fst strs).map batchId_injective

/-! The delete choice 3 divergence. -/

/-- A daily recurring event for the delete-flow theorem. -/
def recurEv1 : Event :=
  { titleText := "standup"
    recurrence := some "FREQ=DAILY"
    eventStatusValue := "confirmed"
    idText := "http://www.google.com/calendar/feeds/default/events/xyz789"
    editHref := "edit-xyz"
    originalEventId := none }

/-- An inert environment for the delete-flow theorem. -/
def env1 : ServiceEnv :=
  { today := "2010-07-01"
    resolveCalendar := fun _ => none
    unquote := id
    getEntries := fun _ _ => []
    executeBatch := fun _ _ => [] }

/-- C1 (code bug): with the original range 2010-06-01,2010-06-20 and
selection 3, the prompt of delete_events advertises deleting all events
following 2010-06-20 (the end bound of the parsed range), but the re-query
actually issued anchors at the start bound: its start_min is 2010-06-01,
the start component of get_start_and_end, not the end component 2010-06-20
that the claim names. -/
theorem c1_choice3_uses_start_bound :
    get_start_and_end env1.today (some "2010-06-01,2010-06-20") =
      ("2010-06-01", some "2010-06-20") ∧
    (delete_events env1 true false (fun _ => 3) [recurEv1]
        (some "2010-06-01,2010-06-20") none).promptStr =
      "1) Instances between 2010-06-01 and 2010-06-20\n" ++
      "2) All events in this series\n" ++
      "3) All events following 2010-06-20\n" ++
      "4) Do not delete" ∧
    (delete_events env1 true false (fun _ => 3) [recurEv1]
        (some "2010-06-01,2010-06-20") none).recurActions =
      [(recurEv1, RecurAction.deleteInstances
        { user := "default"
          textQuery := none
          startMin := some "2010-06-01"
          startMax := none
          singleevents := some "true"
          orderby := "starttime"
          sortorder := "ascend"
          maxResults := 100 } [])] ∧
    ("2010-06-01" : String) ≠ "2010-06-20" := by
  exact ⟨rfl, rfl, rfl, by decide⟩
